import Mathlib

/-! SDL audio driver of SameBoy (`SDL/audio/sdl.c`)

A shallow embedding of the SDL audio output adapter: its static variables
become the fields of `Driver`, each `static` function becomes a function on
`Driver`, and the SDL / SDL_mixer calls it makes act on an explicit model of
the library state (`Mixer`, the device queue) or are answered by an explicit
environment (`InitEnv`, the music loader).
-/

set_option autoImplicit false

namespace SDLAudio

/-! ## Constants -/

/-- The `AUDIO_FREQUENCY` of the build: 96000, or 48000 when `_WIN32` is defined. -/
def AUDIO_FREQUENCY (win32 : Bool) : Int := if win32 then 48000 else 96000

/-- The `AUDIO_BUFFER_SIZE` constant: capacity of `audio_buffer` in frames. -/
def AUDIO_BUFFER_SIZE : Nat := 512

/-- The range of C's `unsigned` (32 bits). -/
def UINT_RANGE : Nat := 4294967296

/-- SDL_mixer's `MIX_INIT_MP3` flag. -/
def MIX_INIT_MP3 : Int := 8

/-- SDL_mixer's `MIX_MAX_VOLUME`. -/
def MIX_MAX_VOLUME : Int := 128

/-- SDL's `AUDIO_S16SYS`: `AUDIO_S16LSB` or `AUDIO_S16MSB` by byte order. -/
def AUDIO_S16SYS (bigEndian : Bool) : Nat := if bigEndian then 0x9010 else 0x8010

/-- SDL's `SDL_AUDIO_ALLOW_FREQUENCY_CHANGE`. -/
def SDL_AUDIO_ALLOW_FREQUENCY_CHANGE : Nat := 1

/-- SDL's `SDL_AUDIO_ALLOW_SAMPLES_CHANGE`. -/
def SDL_AUDIO_ALLOW_SAMPLES_CHANGE : Nat := 8

/-- Size in bytes of the local `char filename[12]` of `_audio_play_music`. -/
def FILENAME_SIZE : Nat := 12

/-! ## Data model -/

/-- Modelled from the spec: `GB_sample_t` is declared in the emulator core's
headers, which are not part of the sources at hand; the spec calls it one
stereo pair of audio samples (a frame). -/
structure GB_sample_t where
  left : Int
  right : Int
deriving DecidableEq, Repr

/-- The fields of `SDL_AudioSpec` the driver sets or reads (`callback` and
`userdata` stay null after the `memset`). -/
structure SDL_AudioSpec where
  freq : Int
  format : Nat
  channels : Nat
  silence : Nat
  samples : Nat
  size : Nat
deriving DecidableEq, Repr

/-- The `SDL_version` record filled by `SDL_GetVersion`. -/
structure SDL_version where
  major : Nat
  minor : Nat
  patch : Nat
deriving DecidableEq, Repr

/-- State of SDL_mixer as far as the driver drives it.  `playing` holds the
music handle being played and its loop count, `loaded` the handles that were
loaded and not yet freed, `volume_calls` the argument of every
`Mix_VolumeMusic` call so far (oldest first), `load_calls` the file name of
every `Mix_LoadMUS` call so far, and `open_audio` the arguments of the last
`Mix_OpenAudio`. -/
structure Mixer where
  music_volume : Int
  playing : Option (Nat × Int)
  loaded : List Nat
  volume_calls : List Int
  load_calls : List String
  open_audio : Option (Int × Nat × Nat × Nat)
deriving DecidableEq, Repr

/-- The static variables of `sdl.c` together with the library state they act
on: `queue` is the device queue, one entry per `SDL_QueueAudio` block, oldest
first; `music = none` is the null `Mix_Music *`. -/
structure Driver where
  device_id : Nat
  want_aspec : SDL_AudioSpec
  have_aspec : SDL_AudioSpec
  music : Option Nat
  buffer_pos : Nat
  audio_buffer : Fin AUDIO_BUFFER_SIZE → GB_sample_t
  queue : List (List GB_sample_t)
  mixer : Mixer

/-- The C type `uint8_t`. -/
abbrev uint8_t : Type := Fin 256

/-- What the platform answers to the calls `_audio_init` makes: the result of
`SDL_Init(SDL_INIT_AUDIO)`, the result of `Mix_Init` for given flags, the
version `SDL_GetVersion` reports, and for `SDL_OpenAudioDevice`, given the
desired spec and the allowed changes, the device id returned (0 on failure)
and the spec written to `obtained`, if one is written. -/
structure InitEnv where
  bigEndian : Bool
  SDL_Init : Int
  Mix_Init : Int → Int
  SDL_GetVersion : SDL_version
  SDL_OpenAudioDevice : SDL_AudioSpec → Nat → Nat × Option SDL_AudioSpec

/-! ## The sample buffer -/

/-- The `SDL_QueueAudio(device_id, audio_buffer, sizeof(audio_buffer))` call:
the whole array is copied to the end of the device queue as one block. -/
def SDL_QueueAudio (d : Driver) : Driver :=
  { d with queue := d.queue ++ [List.ofFn d.audio_buffer] }

/-- The `_audio_queue_sample` function.  The store `audio_buffer[buffer_pos++]`
is defined only for an index inside the array; outside it the result is
`none`. -/
def _audio_queue_sample (d : Driver) (sample : GB_sample_t) : Option Driver :=
  if h : d.buffer_pos < AUDIO_BUFFER_SIZE then
    let d1 : Driver :=
      { d with
        audio_buffer := Function.update d.audio_buffer ⟨d.buffer_pos, h⟩ sample
        buffer_pos := (d.buffer_pos + 1) % UINT_RANGE }
    if d1.buffer_pos = AUDIO_BUFFER_SIZE then
      some (SDL_QueueAudio { d1 with buffer_pos := 0 })
    else
      some d1
  else
    none

/-- Calls `_audio_queue_sample` on each frame of a list in turn. -/
def queue_samples (d : Driver) : List GB_sample_t → Option Driver
  | [] => some d
  | x :: xs => (_audio_queue_sample d x).bind fun d1 => queue_samples d1 xs

/-! ## Initialisation and the negotiated frequency -/

/-- The `sdl_version` local of `_audio_init`: the three `Uint8` components
combined in `int` arithmetic and stored in an `unsigned`. -/
def sdl_version (v : SDL_version) : Nat :=
  (v.major * 1000 + v.minor * 100 + v.patch) % UINT_RANGE

/-- The "Configure Audio" part of `_audio_init`: the value of `want_aspec`
when `SDL_OpenAudioDevice` is called. -/
def configure_audio (win32 bigEndian : Bool) (v : SDL_version) : SDL_AudioSpec :=
  let want : SDL_AudioSpec :=
    { freq := AUDIO_FREQUENCY win32
      format := AUDIO_S16SYS bigEndian
      channels := 2
      silence := 0
      samples := 512
      size := 0 }
  if win32 then
    if sdl_version v < 2006 then { want with freq := 44100 } else want
  else
    if sdl_version v ≥ 2005 then { want with samples := 2048 } else want

/-- The `Mix_OpenAudio` call: the mixer records the format it was opened with. -/
def Mix_OpenAudio (m : Mixer) (frequency : Int) (format channels chunksize : Nat) : Mixer :=
  { m with open_audio := some (frequency, format, channels, chunksize) }

/-- The `_audio_init` function (the `printf` diagnostics are not modelled).
`win32` says whether the build defines `_WIN32`. -/
def _audio_init (win32 : Bool) (env : InitEnv) (d : Driver) : Bool × Driver :=
  if env.SDL_Init ≠ 0 then (false, d)
  else
    let flags := MIX_INIT_MP3
    let result := env.Mix_Init flags
    if flags ≠ result then (false, d)
    else
      let want := configure_audio win32 env.bigEndian env.SDL_GetVersion
      let opened := env.SDL_OpenAudioDevice want
        (SDL_AUDIO_ALLOW_FREQUENCY_CHANGE ||| SDL_AUDIO_ALLOW_SAMPLES_CHANGE)
      (true,
        { d with
          want_aspec := want
          device_id := opened.1
          have_aspec := opened.2.getD d.have_aspec
          mixer := Mix_OpenAudio d.mixer want.freq want.format want.channels
            (want.samples / want.channels) })

/-- The `_audio_get_frequency` function: the `int` field converted to `unsigned`. -/
def _audio_get_frequency (d : Driver) : Nat :=
  (d.have_aspec.freq % (UINT_RANGE : Int)).toNat

/-! ## Music -/

/-- The `Mix_VolumeMusic` function of SDL_mixer: returns the previous volume;
a negative argument only queries, a larger one than `MIX_MAX_VOLUME` is
clamped. -/
def Mix_VolumeMusic (m : Mixer) (volume : Int) : Int × Mixer :=
  let prev_volume := m.music_volume
  let m1 : Mixer := { m with volume_calls := m.volume_calls ++ [volume] }
  if volume < 0 then (prev_volume, m1)
  else if volume > MIX_MAX_VOLUME then (prev_volume, { m1 with music_volume := MIX_MAX_VOLUME })
  else (prev_volume, { m1 with music_volume := volume })

/-- The `_audio_music_volume` function. -/
def _audio_music_volume (d : Driver) (volume : Int) : Driver :=
  let q := Mix_VolumeMusic d.mixer (-1)
  if volume ≠ q.1 then { d with mixer := (Mix_VolumeMusic q.2 volume).2 }
  else { d with mixer := q.2 }

/-- The `Mix_FreeMusic` function of SDL_mixer: a null handle is ignored; a
handle that is playing is stopped, then released. -/
def Mix_FreeMusic (m : Mixer) (music : Option Nat) : Mixer :=
  match music with
  | none => m
  | some h =>
    { m with
      playing := if m.playing.map Prod.fst = some h then none else m.playing
      loaded := m.loaded.filter fun x => x ≠ h }

/-- The `Mix_LoadMUS` function of SDL_mixer; `load` says which files load and
to which handle. -/
def Mix_LoadMUS (load : String → Option Nat) (m : Mixer) (file : String) : Option Nat × Mixer :=
  let m1 : Mixer := { m with load_calls := m.load_calls ++ [file] }
  match load file with
  | none => (none, m1)
  | some h => (some h, { m1 with loaded := m1.loaded ++ [h] })

/-- The `Mix_PlayMusic` function of SDL_mixer. -/
def Mix_PlayMusic (m : Mixer) (music : Nat) (loops : Int) : Mixer :=
  { m with playing := some (music, loops) }

/-- The `%x` conversion of `printf`: lower-case hexadecimal, no padding. -/
def format_x (n : Nat) : String := String.mk (Nat.toDigits 16 n)

/-- The string `sprintf(filename, "Music/%x.mp3", music_id)` produces. -/
def music_filename (music_id : uint8_t) : String :=
  "Music/" ++ format_x music_id.val ++ ".mp3"

/-- The `_audio_play_music` function.  `sprintf` stores the string and its
terminating NUL in `filename`; when they do not fit in the array the
behaviour is undefined and the result is `none`. -/
def _audio_play_music (load : String → Option Nat) (d : Driver) (music_id : uint8_t) :
    Option Driver :=
  let m1 := Mix_FreeMusic d.mixer d.music
  let filename := music_filename music_id
  if filename.length + 1 ≤ FILENAME_SIZE then
    let r := Mix_LoadMUS load m1 filename
    match r.1 with
    | some h => some { d with music := some h, mixer := Mix_PlayMusic r.2 h 999 }
    | none => some { d with music := none, mixer := r.2 }
  else
    none

/-- The rendering the specification describes: exactly two hexadecimal digits. -/
def two_hex_digits (music_id : uint8_t) : String :=
  String.mk [Nat.digitChar (music_id.val / 16), Nat.digitChar (music_id.val % 16)]

/-- A driver state before any call: null handles, zeroed specs, empty buffer. -/
def Driver.initial : Driver :=
  { device_id := 0
    want_aspec := ⟨0, 0, 0, 0, 0, 0⟩
    have_aspec := ⟨0, 0, 0, 0, 0, 0⟩
    music := none
    buffer_pos := 0
    audio_buffer := fun _ => ⟨0, 0⟩
    queue := []
    mixer := ⟨MIX_MAX_VOLUME, none, [], [], [], none⟩ }

/-- The order on versions the specification speaks of: `v` is at least `w`,
comparing major, then minor, then patch. -/
def version_at_least (v w : SDL_version) : Prop :=
  v.major > w.major ∨
    (v.major = w.major ∧ (v.minor > w.minor ∨ (v.minor = w.minor ∧ v.patch ≥ w.patch)))

instance (v w : SDL_version) : Decidable (version_at_least v w) := by
  unfold version_at_least
  exact inferInstance

/-- A platform on which `SDL_Init` and `Mix_Init` succeed, which reports
version `v` and answers `opened` to `SDL_OpenAudioDevice`. -/
def InitEnv.succeeding (v : SDL_version) (opened : Nat × Option SDL_AudioSpec) : InitEnv :=
  { bigEndian := false
    SDL_Init := 0
    Mix_Init := fun flags => flags
    SDL_GetVersion := v
    SDL_OpenAudioDevice := fun _ _ => opened }

/-- A driver state in which music handle 7 is loaded and playing. -/
def Driver.playing7 : Driver :=
  { Driver.initial with
    music := some 7
    mixer := ⟨MIX_MAX_VOLUME, some (7, 999), [7], [], [], none⟩ }

/-- A loader for which no file exists. -/
def no_file : String → Option Nat := fun _ => none

/-! ## Lemmas on the sample buffer -/

/-- The frames written to `audio_buffer` since the last flush: `buffer_pos`
counts them, they fill the array from index 0, and the array is not full. -/
def Pending (d : Driver) (pend : List GB_sample_t) : Prop :=
  d.buffer_pos = pend.length ∧ pend.length < AUDIO_BUFFER_SIZE ∧
    ∀ (i : Nat) (h : i < AUDIO_BUFFER_SIZE) (h' : i < pend.length),
      d.audio_buffer ⟨i, h⟩ = pend[i]

theorem pending_nil (d : Driver) (h : d.buffer_pos = 0) : Pending d [] := by
  refine ⟨by simpa using h, by simp [AUDIO_BUFFER_SIZE], ?_⟩
  intro i _ h'
  simp at h'

theorem queue_sample_lt (d : Driver) (x : GB_sample_t) (hb : d.buffer_pos < AUDIO_BUFFER_SIZE)
    (hne : d.buffer_pos + 1 ≠ AUDIO_BUFFER_SIZE) :
    _audio_queue_sample d x = some
      { d with
        audio_buffer := Function.update d.audio_buffer ⟨d.buffer_pos, hb⟩ x
        buffer_pos := d.buffer_pos + 1 } := by
  have hmod : (d.buffer_pos + 1) % UINT_RANGE = d.buffer_pos + 1 := by
    apply Nat.mod_eq_of_lt
    simp only [AUDIO_BUFFER_SIZE, UINT_RANGE] at *
    omega
  simp only [_audio_queue_sample, dif_pos hb, hmod, if_neg hne]

theorem queue_sample_eq (d : Driver) (x : GB_sample_t) (hb : d.buffer_pos < AUDIO_BUFFER_SIZE)
    (hfull : d.buffer_pos + 1 = AUDIO_BUFFER_SIZE) :
    _audio_queue_sample d x = some
      { d with
        audio_buffer := Function.update d.audio_buffer ⟨d.buffer_pos, hb⟩ x
        buffer_pos := 0
        queue := d.queue ++
          [List.ofFn (Function.update d.audio_buffer ⟨d.buffer_pos, hb⟩ x)] } := by
  have hmod : (d.buffer_pos + 1) % UINT_RANGE = d.buffer_pos + 1 := by
    apply Nat.mod_eq_of_lt
    simp only [AUDIO_BUFFER_SIZE, UINT_RANGE] at *
    omega
  simp only [_audio_queue_sample, dif_pos hb, hmod, if_pos hfull, SDL_QueueAudio]

theorem update_getElem (d : Driver) (pend : List GB_sample_t) (x : GB_sample_t)
    (hp : Pending d pend) (hb : d.buffer_pos < AUDIO_BUFFER_SIZE)
    (i : Nat) (h : i < AUDIO_BUFFER_SIZE) (h' : i < (pend ++ [x]).length) :
    Function.update d.audio_buffer ⟨d.buffer_pos, hb⟩ x ⟨i, h⟩ = (pend ++ [x])[i] := by
  obtain ⟨hpos, _, hbuf⟩ := hp
  simp only [List.length_append, List.length_singleton] at h'
  by_cases hi : i = pend.length
  · subst hi
    have hfin : (⟨pend.length, h⟩ : Fin AUDIO_BUFFER_SIZE) = ⟨d.buffer_pos, hb⟩ :=
      Fin.ext hpos.symm
    rw [hfin, Function.update_same]
    simp
  · have hi' : i < pend.length := by omega
    have hneq : (⟨i, h⟩ : Fin AUDIO_BUFFER_SIZE) ≠ ⟨d.buffer_pos, hb⟩ := by
      intro hc
      have := congrArg Fin.val hc
      simp only at this
      omega
    rw [Function.update_noteq hneq, List.getElem_append_left hi']
    exact hbuf i h hi'

theorem queue_sample_fill (d : Driver) (pend : List GB_sample_t) (x : GB_sample_t)
    (hp : Pending d pend) (hlt : pend.length + 1 < AUDIO_BUFFER_SIZE) :
    ∃ d1, _audio_queue_sample d x = some d1 ∧ d1.queue = d.queue ∧
      Pending d1 (pend ++ [x]) := by
  have hb : d.buffer_pos < AUDIO_BUFFER_SIZE := by
    have := hp.1
    omega
  have hne : d.buffer_pos + 1 ≠ AUDIO_BUFFER_SIZE := by
    have := hp.1
    omega
  refine ⟨_, queue_sample_lt d x hb hne, rfl, ?_, ?_, ?_⟩
  · simp [hp.1]
  · simpa using hlt
  · intro i h h'
    exact update_getElem d pend x hp hb i h h'

theorem queue_sample_flush (d : Driver) (pend : List GB_sample_t) (x : GB_sample_t)
    (hp : Pending d pend) (heq : pend.length + 1 = AUDIO_BUFFER_SIZE) :
    ∃ d1, _audio_queue_sample d x = some d1 ∧ d1.queue = d.queue ++ [pend ++ [x]] ∧
      Pending d1 [] := by
  have hb : d.buffer_pos < AUDIO_BUFFER_SIZE := by
    have := hp.1
    omega
  have hfull : d.buffer_pos + 1 = AUDIO_BUFFER_SIZE := by
    have := hp.1
    omega
  have hblock : List.ofFn (Function.update d.audio_buffer ⟨d.buffer_pos, hb⟩ x)
      = pend ++ [x] := by
    apply List.ext_getElem
    · rw [List.length_ofFn, List.length_append, List.length_singleton, heq]
    · intro i h1 h2
      rw [List.getElem_ofFn]
      exact update_getElem d pend x hp hb i (by rwa [List.length_ofFn] at h1) h2
  refine ⟨_, queue_sample_eq d x hb hfull, ?_, pending_nil _ rfl⟩
  show d.queue ++ [List.ofFn (Function.update d.audio_buffer ⟨d.buffer_pos, hb⟩ x)] = _
  rw [hblock]

/-- Running a list of frames through `_audio_queue_sample` from a state whose
buffer holds `pend`: every call is defined, the device queue grows by whole
blocks of `AUDIO_BUFFER_SIZE` frames that spell out `pend ++ xs` in order, and
`buffer_pos` ends as the number of frames left over. -/
theorem queue_samples_pending (xs : List GB_sample_t) :
    ∀ (d : Driver) (pend : List GB_sample_t), Pending d pend →
      ∃ d1 new, queue_samples d xs = some d1 ∧ d1.queue = d.queue ++ new ∧
        new.length = (pend.length + xs.length) / AUDIO_BUFFER_SIZE ∧
        (∀ b ∈ new, b.length = AUDIO_BUFFER_SIZE) ∧
        new.flatten = (pend ++ xs).take
          (AUDIO_BUFFER_SIZE * ((pend.length + xs.length) / AUDIO_BUFFER_SIZE)) ∧
        d1.buffer_pos = (pend.length + xs.length) % AUDIO_BUFFER_SIZE := by
  induction xs with
  | nil =>
    intro d pend hp
    have hlen := hp.2.1
    have hdiv : pend.length / AUDIO_BUFFER_SIZE = 0 := Nat.div_eq_of_lt hlen
    refine ⟨d, [], rfl, by simp, ?_, by simp, ?_, ?_⟩
    · simp [hdiv]
    · simp [hdiv]
    · simp only [List.length_nil, Nat.add_zero, Nat.mod_eq_of_lt hlen]
      exact hp.1
  | cons x xs ih =>
    intro d pend hp
    have hlen := hp.2.1
    by_cases hfull : pend.length + 1 = AUDIO_BUFFER_SIZE
    · obtain ⟨d1, hstep, hq, hp1⟩ := queue_sample_flush d pend x hp hfull
      obtain ⟨d2, new, hrun, hq2, hn, hall, hflat, hpos⟩ := ih d1 [] hp1
      have hsum : pend.length + (x :: xs).length = AUDIO_BUFFER_SIZE + xs.length := by
        simp only [List.length_cons]
        omega
      have hdiv : (AUDIO_BUFFER_SIZE + xs.length) / AUDIO_BUFFER_SIZE
          = xs.length / AUDIO_BUFFER_SIZE + 1 := by
        simp only [AUDIO_BUFFER_SIZE]
        omega
      have hmod : (AUDIO_BUFFER_SIZE + xs.length) % AUDIO_BUFFER_SIZE
          = xs.length % AUDIO_BUFFER_SIZE := by
        simp only [AUDIO_BUFFER_SIZE]
        omega
      simp only [List.length_nil, Nat.zero_add, List.nil_append] at hn hflat hpos
      refine ⟨d2, (pend ++ [x]) :: new, ?_, ?_, ?_, ?_, ?_, ?_⟩
      · simp [queue_samples, hstep, hrun]
      · rw [hq2, hq]
        simp
      · rw [hsum, hdiv]
        simp [hn]
      · intro b hb
        rcases List.mem_cons.mp hb with h | h
        · subst h
          simpa using hfull
        · exact hall b h
      · rw [hsum, hdiv, List.flatten_cons, hflat]
        have hl : (pend ++ [x]).length = AUDIO_BUFFER_SIZE := by simpa using hfull
        have happ : pend ++ x :: xs = (pend ++ [x]) ++ xs := by simp
        rw [happ, Nat.mul_add, Nat.mul_one, Nat.add_comm _ AUDIO_BUFFER_SIZE, ← hl,
          List.take_append]
      · rw [hsum, hmod]
        exact hpos
    · have hlt : pend.length + 1 < AUDIO_BUFFER_SIZE := by omega
      obtain ⟨d1, hstep, hq, hp1⟩ := queue_sample_fill d pend x hp hlt
      obtain ⟨d2, new, hrun, hq2, hn, hall, hflat, hpos⟩ := ih d1 (pend ++ [x]) hp1
      have hsum : (pend ++ [x]).length + xs.length = pend.length + (x :: xs).length := by
        simp only [List.length_append, List.length_cons, List.length_nil]
        omega
      have happ : (pend ++ [x]) ++ xs = pend ++ x :: xs := by simp
      rw [hsum] at hn hflat hpos
      rw [happ] at hflat
      refine ⟨d2, new, ?_, ?_, hn, hall, hflat, hpos⟩
      · simp [queue_samples, hstep, hrun]
      · rw [hq2, hq]

/-! ## Lemmas on the file name -/

set_option maxRecDepth 20000

theorem music_filename_eq (music_id : uint8_t) :
    music_filename music_id =
      "Music/" ++
        (if music_id.val < 16 then String.mk [Nat.digitChar music_id.val]
          else two_hex_digits music_id) ++ ".mp3" := by
  revert music_id
  decide

theorem music_filename_fits (music_id : uint8_t) (hlt : music_id.val < 16) :
    (music_filename music_id).length + 1 ≤ FILENAME_SIZE := by
  revert music_id
  decide

/-! ## Lemmas on the requested spec -/

theorem configure_audio_freq (win32 bigEndian : Bool) (v : SDL_version) :
    (configure_audio win32 bigEndian v).freq =
      if win32 then (if sdl_version v < 2006 then 44100 else 48000) else 96000 := by
  cases win32
  · by_cases h : sdl_version v ≥ 2005 <;> simp [configure_audio, AUDIO_FREQUENCY, h]
  · by_cases h : sdl_version v < 2006 <;> simp [configure_audio, AUDIO_FREQUENCY, h]

theorem configure_audio_samples (bigEndian : Bool) (v : SDL_version) :
    (configure_audio false bigEndian v).samples =
      if sdl_version v ≥ 2005 then 2048 else 512 := by
  by_cases h : sdl_version v ≥ 2005 <;> simp [configure_audio, h]

theorem audio_init_true (win32 : Bool) (env : InitEnv) (d : Driver)
    (hinit : (_audio_init win32 env d).1 = true) :
    (_audio_init win32 env d).2 =
      { d with
        want_aspec := configure_audio win32 env.bigEndian env.SDL_GetVersion
        device_id := (env.SDL_OpenAudioDevice
          (configure_audio win32 env.bigEndian env.SDL_GetVersion)
          (SDL_AUDIO_ALLOW_FREQUENCY_CHANGE ||| SDL_AUDIO_ALLOW_SAMPLES_CHANGE)).1
        have_aspec := (env.SDL_OpenAudioDevice
          (configure_audio win32 env.bigEndian env.SDL_GetVersion)
          (SDL_AUDIO_ALLOW_FREQUENCY_CHANGE ||| SDL_AUDIO_ALLOW_SAMPLES_CHANGE)).2.getD
            d.have_aspec
        mixer := Mix_OpenAudio d.mixer
          (configure_audio win32 env.bigEndian env.SDL_GetVersion).freq
          (configure_audio win32 env.bigEndian env.SDL_GetVersion).format
          (configure_audio win32 env.bigEndian env.SDL_GetVersion).channels
          ((configure_audio win32 env.bigEndian env.SDL_GetVersion).samples /
            (configure_audio win32 env.bigEndian env.SDL_GetVersion).channels) } := by
  have h1 : ¬ env.SDL_Init ≠ 0 := by
    intro h
    simp [_audio_init, h] at hinit
  have h2 : ¬ MIX_INIT_MP3 ≠ env.Mix_Init MIX_INIT_MP3 := by
    intro h
    simp [_audio_init, h] at hinit
  simp only [_audio_init, if_neg h1, if_neg h2]

/-! ## The sample buffer: claims -/

/-- C1: starting from `buffer_pos = 0`, queuing exactly 512 frames issues
exactly one `SDL_QueueAudio` submission (the device queue grows by one block,
the 512 frames) and leaves `buffer_pos = 0`; queuing exactly 511 frames issues
no submission and leaves `buffer_pos = 511`. -/
theorem queue_capacity_one_submission (d : Driver) (xs ys : List GB_sample_t)
    (hd : d.buffer_pos = 0) (hx : xs.length = 512) (hy : ys.length = 511) :
    (∃ d1, queue_samples d xs = some d1 ∧ d1.queue = d.queue ++ [xs] ∧
        d1.queue.length = d.queue.length + 1 ∧ d1.buffer_pos = 0) ∧
      (∃ d2, queue_samples d ys = some d2 ∧ d2.queue = d.queue ∧ d2.buffer_pos = 511) := by
  constructor
  · obtain ⟨d1, new, hrun, hq, hn, hall, hflat, hpos⟩ :=
      queue_samples_pending xs d [] (pending_nil d hd)
    simp only [List.length_nil, Nat.zero_add, List.nil_append, hx, AUDIO_BUFFER_SIZE] at hn hflat hpos hall
    have hnew : new = [xs] := by
      match new, hn with
      | [b], _ =>
        simp only [List.flatten_cons, List.flatten_nil, List.append_nil] at hflat
        rw [hflat, List.take_of_length_le (by omega)]
    subst hnew
    exact ⟨d1, hrun, hq, by simp [hq], by simpa using hpos⟩
  · obtain ⟨d2, new, hrun, hq, hn, _, _, hpos⟩ :=
      queue_samples_pending ys d [] (pending_nil d hd)
    simp only [List.length_nil, Nat.zero_add, hy, AUDIO_BUFFER_SIZE] at hn hpos
    have hnew : new = [] := List.eq_nil_of_length_eq_zero (by simpa using hn)
    subst hnew
    exact ⟨d2, hrun, by simpa using hq, by simpa using hpos⟩

theorem queue_capacity_one_submission_witness :
    Driver.initial.buffer_pos = 0 ∧
      (List.replicate 512 (⟨1, -1⟩ : GB_sample_t)).length = 512 ∧
      (List.replicate 511 (⟨2, -2⟩ : GB_sample_t)).length = 511 ∧
      (∃ d1, queue_samples Driver.initial (List.replicate 512 ⟨1, -1⟩) = some d1 ∧
        d1.queue = Driver.initial.queue ++ [List.replicate 512 ⟨1, -1⟩] ∧
        d1.queue.length = Driver.initial.queue.length + 1 ∧ d1.buffer_pos = 0) ∧
      (∃ d2, queue_samples Driver.initial (List.replicate 511 ⟨2, -2⟩) = some d2 ∧
        d2.queue = Driver.initial.queue ∧ d2.buffer_pos = 511) :=
  ⟨rfl, List.length_replicate _ _, List.length_replicate _ _,
    queue_capacity_one_submission Driver.initial _ _ rfl
      (List.length_replicate _ _) (List.length_replicate _ _)⟩

/-- C8: for every sequence of `n` frames queued one by one from
`buffer_pos = 0`, every call is defined; the device receives exactly
`n / 512` new blocks, each of exactly 512 frames, whose concatenation is the
first `512 * (n / 512)` frames of the sequence in order; afterwards
`buffer_pos = n % 512`; and before the write of each frame `k` the position
is `k % 512 < 512`, so the write is in bounds. -/
theorem queue_blocks_invariant (d : Driver) (xs : List GB_sample_t) (hd : d.buffer_pos = 0) :
    ∃ d1 new, queue_samples d xs = some d1 ∧ d1.queue = d.queue ++ new ∧
      new.length = xs.length / 512 ∧
      (∀ b ∈ new, b.length = 512) ∧
      new.flatten = xs.take (512 * (xs.length / 512)) ∧
      d1.buffer_pos = xs.length % 512 ∧
      ∀ (k : Nat) (hk : k < xs.length), ∃ dk, queue_samples d (xs.take k) = some dk ∧
        dk.buffer_pos = k % 512 ∧ dk.buffer_pos < AUDIO_BUFFER_SIZE ∧
        (_audio_queue_sample dk xs[k]).isSome = true := by
  obtain ⟨d1, new, hrun, hq, hn, hall, hflat, hpos⟩ :=
    queue_samples_pending xs d [] (pending_nil d hd)
  simp only [List.length_nil, Nat.zero_add, List.nil_append, AUDIO_BUFFER_SIZE] at hn hflat hpos hall
  refine ⟨d1, new, hrun, hq, hn, hall, hflat, hpos, ?_⟩
  intro k hk
  obtain ⟨dk, _, hrunk, _, _, _, _, hposk⟩ :=
    queue_samples_pending (xs.take k) d [] (pending_nil d hd)
  have hlen : (xs.take k).length = k := by
    rw [List.length_take]
    omega
  simp only [List.length_nil, Nat.zero_add, hlen, AUDIO_BUFFER_SIZE] at hposk
  have hlt : dk.buffer_pos < AUDIO_BUFFER_SIZE := by
    simp only [AUDIO_BUFFER_SIZE]
    omega
  refine ⟨dk, hrunk, hposk, hlt, ?_⟩
  simp only [_audio_queue_sample, dif_pos hlt]
  split <;> rfl

theorem queue_blocks_invariant_witness :
    Driver.initial.buffer_pos = 0 ∧
      ∃ d1 new, queue_samples Driver.initial (List.replicate 1030 ⟨3, 4⟩) = some d1 ∧
        d1.queue = Driver.initial.queue ++ new ∧
        new.length = (List.replicate 1030 (⟨3, 4⟩ : GB_sample_t)).length / 512 ∧
        (∀ b ∈ new, b.length = 512) ∧
        new.flatten = (List.replicate 1030 (⟨3, 4⟩ : GB_sample_t)).take
          (512 * ((List.replicate 1030 (⟨3, 4⟩ : GB_sample_t)).length / 512)) ∧
        d1.buffer_pos = (List.replicate 1030 (⟨3, 4⟩ : GB_sample_t)).length % 512 ∧
        ∀ (k : Nat) (hk : k < (List.replicate 1030 (⟨3, 4⟩ : GB_sample_t)).length),
          ∃ dk, queue_samples Driver.initial
              ((List.replicate 1030 (⟨3, 4⟩ : GB_sample_t)).take k) = some dk ∧
            dk.buffer_pos = k % 512 ∧ dk.buffer_pos < AUDIO_BUFFER_SIZE ∧
            (_audio_queue_sample dk (List.replicate 1030 (⟨3, 4⟩ : GB_sample_t))[k]).isSome
              = true :=
  ⟨rfl, queue_blocks_invariant Driver.initial _ rfl⟩

/-! ## Music volume: claims -/

/-- C2, as stated, fails: after `_audio_music_volume 200` the mixer reports
the clamped volume 128, not 200. -/
theorem music_volume_query_counterexample :
    (Mix_VolumeMusic (_audio_music_volume Driver.initial 200).mixer (-1)).1 = 128 ∧
      ¬ (Mix_VolumeMusic (_audio_music_volume Driver.initial 200).mixer (-1)).1 = 200 := by
  decide

/-- C2, amended: for every volume `v` with `0 ≤ v ≤ 128` and every state,
`_audio_music_volume v` followed by the query `Mix_VolumeMusic(-1)` returns
`v`. -/
theorem music_volume_query (d : Driver) (v : Int) (h0 : 0 ≤ v) (h1 : v ≤ 128) :
    (Mix_VolumeMusic (_audio_music_volume d v).mixer (-1)).1 = v := by
  have hlt : ¬ v < 0 := by omega
  have hgt : ¬ v > MIX_MAX_VOLUME := by
    simp only [MIX_MAX_VOLUME]
    omega
  by_cases hv : v = d.mixer.music_volume
  · simp [_audio_music_volume, Mix_VolumeMusic, hv]
  · simp [_audio_music_volume, Mix_VolumeMusic, hv, hlt, hgt]

theorem music_volume_query_witness :
    (0 : Int) ≤ 100 ∧ (100 : Int) ≤ 128 ∧
      (Mix_VolumeMusic (_audio_music_volume Driver.initial 100).mixer (-1)).1 = 100 :=
  ⟨by decide, by decide, music_volume_query Driver.initial 100 (by decide) (by decide)⟩

/-- C3, as stated, fails: two calls `_audio_music_volume 200` in a row issue
`Mix_VolumeMusic(200)` twice, since the mixer clamps to 128 and the second
query again differs from 200. -/
theorem music_volume_twice_counterexample :
    (_audio_music_volume (_audio_music_volume Driver.initial 200) 200).mixer.volume_calls
        = Driver.initial.mixer.volume_calls ++ [-1, 200, -1, 200] ∧
      ¬ ((_audio_music_volume (_audio_music_volume Driver.initial 200) 200).mixer.volume_calls.count
          200 ≤ 1) := by
  decide

/-- C3, amended: for every volume `v` with `0 ≤ v ≤ 128` and every prior
mixer state, two calls `_audio_music_volume v` in a row issue
`Mix_VolumeMusic(v)` at most once: the first call makes the query and, exactly
when `v` differs from the current volume, the set; the second call makes only
the query. -/
theorem music_volume_twice (d : Driver) (v : Int) (h0 : 0 ≤ v) (h1 : v ≤ 128) :
    (_audio_music_volume d v).mixer.volume_calls
        = d.mixer.volume_calls ++ (if v ≠ d.mixer.music_volume then [-1, v] else [-1]) ∧
      (_audio_music_volume (_audio_music_volume d v) v).mixer.volume_calls
        = (_audio_music_volume d v).mixer.volume_calls ++ [-1] ∧
      ∃ new, (_audio_music_volume (_audio_music_volume d v) v).mixer.volume_calls
          = d.mixer.volume_calls ++ new ∧ new.count v ≤ 1 := by
  have hlt : ¬ v < 0 := by omega
  have hgt : ¬ v > MIX_MAX_VOLUME := by
    simp only [MIX_MAX_VOLUME]
    omega
  have hneg : v ≠ -1 := by omega
  by_cases hv : v = d.mixer.music_volume
  · refine ⟨?_, ?_, [-1, -1], ?_, ?_⟩
    · simp [_audio_music_volume, Mix_VolumeMusic, hv]
    · simp [_audio_music_volume, Mix_VolumeMusic, hv]
    · simp [_audio_music_volume, Mix_VolumeMusic, hv]
    · simp [List.count_cons, hneg.symm]
  · refine ⟨?_, ?_, [-1, v, -1], ?_, ?_⟩
    · simp [_audio_music_volume, Mix_VolumeMusic, hv, hlt, hgt]
    · simp [_audio_music_volume, Mix_VolumeMusic, hv, hlt, hgt]
    · simp [_audio_music_volume, Mix_VolumeMusic, hv, hlt, hgt]
    · simp [List.count_cons, hneg.symm]

theorem music_volume_twice_witness :
    (0 : Int) ≤ 64 ∧ (64 : Int) ≤ 128 ∧
      ((_audio_music_volume Driver.initial 64).mixer.volume_calls
          = Driver.initial.mixer.volume_calls ++
            (if (64 : Int) ≠ Driver.initial.mixer.music_volume then [-1, 64] else [-1]) ∧
        (_audio_music_volume (_audio_music_volume Driver.initial 64) 64).mixer.volume_calls
          = (_audio_music_volume Driver.initial 64).mixer.volume_calls ++ [-1] ∧
        ∃ new, (_audio_music_volume (_audio_music_volume Driver.initial 64) 64).mixer.volume_calls
            = Driver.initial.mixer.volume_calls ++ new ∧ new.count 64 ≤ 1) :=
  ⟨by decide, by decide, music_volume_twice Driver.initial 64 (by decide) (by decide)⟩

/-! ## Initialisation: claims -/

/-- C4, evaluated where the code departs from it: `SDL_Init` and `Mix_Init`
succeed, `SDL_OpenAudioDevice` fails (device id 0, nothing written to
`have_aspec`), and `_audio_init` still returns `true`, with `device_id = 0`. -/
theorem audio_init_open_failure_returns_true :
    ((InitEnv.succeeding ⟨2, 0, 5⟩ (0, none)).SDL_OpenAudioDevice
        (configure_audio false false ⟨2, 0, 5⟩)
        (SDL_AUDIO_ALLOW_FREQUENCY_CHANGE ||| SDL_AUDIO_ALLOW_SAMPLES_CHANGE)).1 = 0 ∧
      (_audio_init false (InitEnv.succeeding ⟨2, 0, 5⟩ (0, none)) Driver.initial).1 = true ∧
      (_audio_init false (InitEnv.succeeding ⟨2, 0, 5⟩ (0, none)) Driver.initial).2.device_id = 0 := by
  decide

/-- C5, as stated, fails: on a non-Windows build a device that opens (id 2)
and grants 48000 Hz makes `_audio_init` return `true`, and
`_audio_get_frequency` then returns 48000, which is not the candidate 96000. -/
theorem get_frequency_counterexample :
    (_audio_init false
        (InitEnv.succeeding ⟨2, 0, 5⟩ (2, some ⟨48000, 0x8010, 2, 0, 1024, 4096⟩))
        Driver.initial).1 = true ∧
      _audio_get_frequency (_audio_init false
        (InitEnv.succeeding ⟨2, 0, 5⟩ (2, some ⟨48000, 0x8010, 2, 0, 1024, 4096⟩))
        Driver.initial).2 = 48000 ∧
      ¬ _audio_get_frequency (_audio_init false
        (InitEnv.succeeding ⟨2, 0, 5⟩ (2, some ⟨48000, 0x8010, 2, 0, 1024, 4096⟩))
        Driver.initial).2 = 96000 := by
  decide

/-- C5, amended: whenever `_audio_init` returns `true` and
`SDL_OpenAudioDevice` has returned id `id` and written a granted spec `g` to
`have_aspec`, the driver holds that id and a following `_audio_get_frequency`
returns the granted `g.freq` (as `unsigned`), whatever was requested; and when
the granted frequency is the requested one, that value is one of the requested
rates (96000 on non-Windows; 48000 or 44100 on Windows) and is not zero. -/
theorem get_frequency_after_init (win32 : Bool) (env : InitEnv) (d : Driver)
    (id : Nat) (g : SDL_AudioSpec)
    (hinit : (_audio_init win32 env d).1 = true)
    (hopen : env.SDL_OpenAudioDevice (configure_audio win32 env.bigEndian env.SDL_GetVersion)
      (SDL_AUDIO_ALLOW_FREQUENCY_CHANGE ||| SDL_AUDIO_ALLOW_SAMPLES_CHANGE) = (id, some g)) :
    (_audio_init win32 env d).2.device_id = id ∧
      (_audio_init win32 env d).2.have_aspec = g ∧
      _audio_get_frequency (_audio_init win32 env d).2 = (g.freq % 4294967296).toNat ∧
      (g.freq = (configure_audio win32 env.bigEndian env.SDL_GetVersion).freq →
        (if win32 then
            _audio_get_frequency (_audio_init win32 env d).2 = 48000 ∨
              _audio_get_frequency (_audio_init win32 env d).2 = 44100
          else _audio_get_frequency (_audio_init win32 env d).2 = 96000) ∧
        _audio_get_frequency (_audio_init win32 env d).2 ≠ 0) := by
  have hstate := audio_init_true win32 env d hinit
  have hhave : (_audio_init win32 env d).2.have_aspec = g := by
    rw [hstate]
    simp only [hopen, Option.getD_some]
  have hfreq : _audio_get_frequency (_audio_init win32 env d).2
      = (g.freq % 4294967296).toNat := by
    simp only [_audio_get_frequency, hhave, UINT_RANGE]
    rfl
  have hid1 : (_audio_init win32 env d).2.device_id = id := by
    rw [hstate]
    simp only [hopen]
  refine ⟨hid1, hhave, hfreq, ?_⟩
  intro hgrant
  constructor
  · rw [hfreq, hgrant, configure_audio_freq]
    cases win32
    · simp
    · by_cases h : sdl_version env.SDL_GetVersion < 2006 <;> simp [h]
  · rw [hfreq, hgrant, configure_audio_freq]
    cases win32
    · simp
    · by_cases h : sdl_version env.SDL_GetVersion < 2006 <;> simp [h]

theorem get_frequency_after_init_witness :
    (_audio_init true
        (InitEnv.succeeding ⟨2, 0, 4⟩ (3, some ⟨44100, 0x8010, 2, 0, 512, 2048⟩))
        Driver.initial).1 = true ∧
      (_audio_init true
        (InitEnv.succeeding ⟨2, 0, 4⟩ (3, some ⟨44100, 0x8010, 2, 0, 512, 2048⟩))
        Driver.initial).2.device_id = 3 ∧
      _audio_get_frequency (_audio_init true
        (InitEnv.succeeding ⟨2, 0, 4⟩ (3, some ⟨44100, 0x8010, 2, 0, 512, 2048⟩))
        Driver.initial).2 = ((44100 : Int) % 4294967296).toNat ∧
      _audio_get_frequency (_audio_init true
        (InitEnv.succeeding ⟨2, 0, 4⟩ (3, some ⟨44100, 0x8010, 2, 0, 512, 2048⟩))
        Driver.initial).2 ≠ 0 :=
  ⟨by decide,
    (get_frequency_after_init true
      (InitEnv.succeeding ⟨2, 0, 4⟩ (3, some ⟨44100, 0x8010, 2, 0, 512, 2048⟩))
      Driver.initial 3 ⟨44100, 0x8010, 2, 0, 512, 2048⟩
      (by decide) rfl).1,
    (get_frequency_after_init true
      (InitEnv.succeeding ⟨2, 0, 4⟩ (3, some ⟨44100, 0x8010, 2, 0, 512, 2048⟩))
      Driver.initial 3 ⟨44100, 0x8010, 2, 0, 512, 2048⟩
      (by decide) rfl).2.2.1,
    ((get_frequency_after_init true
      (InitEnv.succeeding ⟨2, 0, 4⟩ (3, some ⟨44100, 0x8010, 2, 0, 512, 2048⟩))
      Driver.initial 3 ⟨44100, 0x8010, 2, 0, 512, 2048⟩
      (by decide) rfl).2.2.2 (by decide)).2⟩

/-- C9, as stated, fails: version 1.10.5 is below 2.0.5 in version order, yet
its encoding is `1*1000 + 10*100 + 5 = 2005` and `_audio_init` requests 2048
samples for it. -/
theorem samples_version_counterexample :
    (_audio_init false (InitEnv.succeeding ⟨1, 10, 5⟩ (2, none)) Driver.initial).2.want_aspec.samples
        = 2048 ∧
      sdl_version ⟨1, 10, 5⟩ = 2005 ∧
      ¬ version_at_least ⟨1, 10, 5⟩ ⟨2, 0, 5⟩ := by
  decide

/-- C9, amended: on a non-Windows build, for every SDL version with
components in 0..255 for which `_audio_init` gets as far as configuring the
device, 2048 samples are requested exactly when
`major*1000 + minor*100 + patch ≥ 2005` and 512 otherwise; and that is exactly
when the version is at least 2.0.5 in version order if and only if
`major ≥ 2` or the encoding is below 2005, that is, for every version but
those with `major ≤ 1` whose encoding reaches 2005. -/
theorem samples_version (env : InitEnv) (d : Driver)
    (hinit : (_audio_init false env d).1 = true)
    (hmajor : env.SDL_GetVersion.major < 256) (hminor : env.SDL_GetVersion.minor < 256)
    (hpatch : env.SDL_GetVersion.patch < 256) :
    (_audio_init false env d).2.want_aspec.samples =
        (if env.SDL_GetVersion.major * 1000 + env.SDL_GetVersion.minor * 100
            + env.SDL_GetVersion.patch ≥ 2005 then 2048 else 512) ∧
      (((_audio_init false env d).2.want_aspec.samples = 2048 ↔
          version_at_least env.SDL_GetVersion ⟨2, 0, 5⟩) ↔
        (2 ≤ env.SDL_GetVersion.major ∨
          env.SDL_GetVersion.major * 1000 + env.SDL_GetVersion.minor * 100
            + env.SDL_GetVersion.patch < 2005)) ∧
      (((_audio_init false env d).2.want_aspec.samples = 512 ↔
          ¬ version_at_least env.SDL_GetVersion ⟨2, 0, 5⟩) ↔
        (2 ≤ env.SDL_GetVersion.major ∨
          env.SDL_GetVersion.major * 1000 + env.SDL_GetVersion.minor * 100
            + env.SDL_GetVersion.patch < 2005)) ∧
      ((env.SDL_GetVersion.major * 1000 + env.SDL_GetVersion.minor * 100
            + env.SDL_GetVersion.patch ≥ 2005 ↔
          version_at_least env.SDL_GetVersion ⟨2, 0, 5⟩) ↔
        (2 ≤ env.SDL_GetVersion.major ∨
          env.SDL_GetVersion.major * 1000 + env.SDL_GetVersion.minor * 100
            + env.SDL_GetVersion.patch < 2005)) ∧
      (version_at_least env.SDL_GetVersion ⟨2, 0, 5⟩ →
        (_audio_init false env d).2.want_aspec.samples = 2048) := by
  have hstate := audio_init_true false env d hinit
  have hmod : sdl_version env.SDL_GetVersion = env.SDL_GetVersion.major * 1000
      + env.SDL_GetVersion.minor * 100 + env.SDL_GetVersion.patch := by
    simp only [sdl_version, UINT_RANGE]
    omega
  have hsamples : (_audio_init false env d).2.want_aspec.samples =
      (if env.SDL_GetVersion.major * 1000 + env.SDL_GetVersion.minor * 100
          + env.SDL_GetVersion.patch ≥ 2005 then 2048 else 512) := by
    rw [hstate]
    simp only [configure_audio_samples, hmod]
  have h2048 : (_audio_init false env d).2.want_aspec.samples = 2048 ↔
      env.SDL_GetVersion.major * 1000 + env.SDL_GetVersion.minor * 100
        + env.SDL_GetVersion.patch ≥ 2005 := by
    rw [hsamples]
    by_cases h : env.SDL_GetVersion.major * 1000 + env.SDL_GetVersion.minor * 100
        + env.SDL_GetVersion.patch ≥ 2005 <;> simp [h]
  have h512 : (_audio_init false env d).2.want_aspec.samples = 512 ↔
      ¬ env.SDL_GetVersion.major * 1000 + env.SDL_GetVersion.minor * 100
        + env.SDL_GetVersion.patch ≥ 2005 := by
    rw [hsamples]
    by_cases h : env.SDL_GetVersion.major * 1000 + env.SDL_GetVersion.minor * 100
        + env.SDL_GetVersion.patch ≥ 2005 <;> simp [h]
  refine ⟨hsamples, ?_, ?_, ?_, ?_⟩
  · rw [h2048]
    simp only [version_at_least]
    omega
  · rw [h512]
    simp only [version_at_least]
    omega
  · simp only [version_at_least]
    omega
  · rw [h2048]
    simp only [version_at_least]
    omega

theorem samples_version_witness :
    (_audio_init false (InitEnv.succeeding ⟨1, 10, 5⟩ (2, none)) Driver.initial).2.want_aspec.samples
        = (if 1 * 1000 + 10 * 100 + 5 ≥ 2005 then 2048 else 512) ∧
      ¬ ((_audio_init false (InitEnv.succeeding ⟨1, 10, 5⟩ (2, none))
            Driver.initial).2.want_aspec.samples = 2048 ↔
          version_at_least ⟨1, 10, 5⟩ ⟨2, 0, 5⟩) :=
  ⟨(samples_version (InitEnv.succeeding ⟨1, 10, 5⟩ (2, none)) Driver.initial
      (by decide) (by decide) (by decide) (by decide)).1,
    fun h => absurd
      ((samples_version (InitEnv.succeeding ⟨1, 10, 5⟩ (2, none)) Driver.initial
        (by decide) (by decide) (by decide) (by decide)).2.1.mp h) (by decide)⟩

/-! ## Music files: claims -/

/-- C6, as stated, fails: for id 5 the file name handed to `Mix_LoadMUS` is
`Music/5.mp3`, with a one-digit identifier, not `Music/05.mp3`. -/
theorem music_filename_counterexample :
    (_audio_play_music no_file Driver.initial 5).map (fun d => d.mixer.load_calls)
        = some ["Music/5.mp3"] ∧
      ¬ music_filename 5 = "Music/" ++ two_hex_digits 5 ++ ".mp3" := by
  decide

/-- C6, amended: for every music id in 0..255 the string `_audio_play_music`
formats is `Music/`, then the id in lower-case hexadecimal without padding
(one digit for ids 0..15, two digits for ids 16..255), then `.mp3`; and for
ids 0..15 the call is defined and hands exactly that string to the loader. -/
theorem music_filename_unpadded (load : String → Option Nat) (d : Driver) (music_id : uint8_t) :
    music_filename music_id =
        "Music/" ++
          (if music_id.val < 16 then String.mk [Nat.digitChar music_id.val]
            else two_hex_digits music_id) ++ ".mp3" ∧
      (music_id.val < 16 →
        ∃ d1, _audio_play_music load d music_id = some d1 ∧
          d1.mixer.load_calls = d.mixer.load_calls ++ [music_filename music_id]) := by
  constructor
  · exact music_filename_eq music_id
  · intro hlt
    have hfit := music_filename_fits music_id hlt
    simp only [_audio_play_music, if_pos hfit, Mix_LoadMUS]
    cases hl : load (music_filename music_id) with
    | none => exact ⟨_, rfl, by cases hm : d.music <;> rfl⟩
    | some h => exact ⟨_, rfl, by cases hm : d.music <;> rfl⟩

theorem music_filename_unpadded_witness :
    music_filename 5 = "Music/5.mp3" ∧
      ∃ d1, _audio_play_music no_file Driver.playing7 5 = some d1 ∧
        d1.mixer.load_calls = Driver.playing7.mixer.load_calls ++ [music_filename 5] :=
  ⟨(music_filename_unpadded no_file Driver.playing7 5).1,
    (music_filename_unpadded no_file Driver.playing7 5).2 (by decide)⟩

/-- C7, as stated, fails: with music 7 loaded and playing, a call for id 5
whose file does not load releases and stops music 7: nothing is playing
afterwards and the handle is null. -/
theorem play_music_load_failure_counterexample :
    Driver.playing7.mixer.playing = some (7, 999) ∧
      (_audio_play_music no_file Driver.playing7 5).map
          (fun d => (d.music, d.mixer.playing, d.mixer.loaded)) = some (none, none, []) ∧
      ¬ (_audio_play_music no_file Driver.playing7 5).map (fun d => d.mixer.playing)
          = some Driver.playing7.mixer.playing := by
  decide

/-- C7, amended: for every state and every music id whose file name fits the
buffer and whose file fails to load, `_audio_play_music` is defined, starts no
new playback and leaves the music handle null; the previously loaded music is
released, and stopped if it was the one playing; when no music was loaded the
playback state is unchanged. -/
theorem play_music_load_failure (load : String → Option Nat) (d : Driver) (music_id : uint8_t)
    (hfit : (music_filename music_id).length + 1 ≤ FILENAME_SIZE)
    (hfail : load (music_filename music_id) = none) :
    ∃ d1, _audio_play_music load d music_id = some d1 ∧
      d1.music = none ∧
      (d1.mixer.playing = none ∨ d1.mixer.playing = d.mixer.playing) ∧
      (∀ h, d.music = some h → h ∉ d1.mixer.loaded ∧
        (d.mixer.playing.map Prod.fst = some h → d1.mixer.playing = none)) ∧
      (d.music = none → d1.mixer.playing = d.mixer.playing ∧
        d1.mixer.loaded = d.mixer.loaded) := by
  simp only [_audio_play_music, if_pos hfit, Mix_LoadMUS, hfail]
  refine ⟨_, rfl, rfl, ?_, ?_, ?_⟩
  · cases hm : d.music with
    | none => exact Or.inr rfl
    | some h =>
      simp only [Mix_FreeMusic]
      by_cases hp : d.mixer.playing.map Prod.fst = some h
      · exact Or.inl (by simp [hp])
      · exact Or.inr (by simp [hp])
  · intro h hm
    simp only [hm, Mix_FreeMusic]
    constructor
    · simp [List.mem_filter]
    · intro hp
      simp [hp]
  · intro hm
    simp [hm, Mix_FreeMusic]

theorem play_music_load_failure_witness :
    (music_filename 5).length + 1 ≤ FILENAME_SIZE ∧ no_file (music_filename 5) = none ∧
      ∃ d1, _audio_play_music no_file Driver.playing7 5 = some d1 ∧
        d1.music = none ∧
        (d1.mixer.playing = none ∨ d1.mixer.playing = Driver.playing7.mixer.playing) ∧
        (∀ h, Driver.playing7.music = some h → h ∉ d1.mixer.loaded ∧
          (Driver.playing7.mixer.playing.map Prod.fst = some h → d1.mixer.playing = none)) ∧
        (Driver.playing7.music = none → d1.mixer.playing = Driver.playing7.mixer.playing ∧
          d1.mixer.loaded = Driver.playing7.mixer.loaded) :=
  ⟨by decide, rfl, play_music_load_failure no_file Driver.playing7 5 (by decide) rfl⟩

/-- C10, evaluated where the code departs from it: for id 16 the formatted
string `Music/10.mp3` has 12 characters, so with its terminating NUL it needs
13 bytes and does not fit the 12-byte `filename`; the call has no defined
result. -/
theorem music_filename_overflow :
    music_filename 16 = "Music/10.mp3" ∧
      (music_filename 16).length = 12 ∧
      ¬ (music_filename 16).length + 1 ≤ FILENAME_SIZE ∧
      (_audio_play_music no_file Driver.initial 16).isNone = true := by
  decide

end SDLAudio
